import Mathlib

/-!
Shallow embedding of `finance_simulation.py` (module `finance_simulation`):
the entity model (`NetWorth`, `Property`, `Income`, `Expense`), the event
system (`Event`) and the simulation engine (`Simulation`).

Python floats are modelled as exact rationals (`ℚ`); Python's
`round(x, 2)` is modelled by `round2` below (rounding the number of cents
to the nearest integer).  Python lists are Lean lists; the stringly-typed
`Event.action` with its dynamic payload is modelled as a tagged variant
carrying exactly the payload each action uses in the source.  Mutation of
the `Simulation` object is modelled as explicit state passing: every
method of the source that mutates `self` becomes a function
`Simulation → Simulation`.
-/

namespace FinanceSim

/-- Model of Python's `round(x, 2)`: round the value expressed in cents to
the nearest integer, then scale back. -/
def round2 (x : ℚ) : ℚ := ((round (x * 100) : ℤ) : ℚ) / 100

/-- `Property.__init__` fields, including the two derived loan fields that
the constructor computes via `_compute_loan_details`. -/
structure Property where
  name : String
  gross_value : ℚ
  buying_taxes : ℚ
  debt : ℚ
  taxe_fonciere : ℚ
  charges_copro : ℚ
  loan_amount : ℚ
  loan_duration : ℤ
  loan_interest_rate : ℚ
  loan_monthly_payment : ℚ
  yearly_amortization : ℚ
deriving DecidableEq

/-- `Property._compute_loan_details`: `n = loan_duration * 12`,
`r = loan_interest_rate / 12`; if `n > 0 and r > 0` return the annuity
monthly payment (rounded to 2 decimals) and straight-line yearly
amortization, else `(0, 0)`. -/
def computeLoanDetails (loan_amount : ℚ) (loan_duration : ℤ)
    (loan_interest_rate : ℚ) : ℚ × ℚ :=
  let n : ℤ := loan_duration * 12
  let r : ℚ := loan_interest_rate / 12
  if 0 < n ∧ 0 < r then
    (round2 (loan_amount / (((1 + r) ^ n.toNat - 1) / (r * (1 + r) ^ n.toNat))),
     loan_amount / (loan_duration : ℚ))
  else (0, 0)

/-- `Property.__init__`: store the nine arguments and compute the derived
loan fields. -/
def Property.make (name : String) (gross_value buying_taxes debt
    taxe_fonciere charges_copro loan_amount : ℚ) (loan_duration : ℤ)
    (loan_interest_rate : ℚ) : Property :=
  let d := computeLoanDetails loan_amount loan_duration loan_interest_rate
  { name := name
    gross_value := gross_value
    buying_taxes := buying_taxes
    debt := debt
    taxe_fonciere := taxe_fonciere
    charges_copro := charges_copro
    loan_amount := loan_amount
    loan_duration := loan_duration
    loan_interest_rate := loan_interest_rate
    loan_monthly_payment := d.1
    yearly_amortization := d.2 }

/-- `Income`: recurring yearly income. -/
structure Income where
  name : String
  yearly_amount : ℚ
deriving DecidableEq

/-- `Expense`: recurring yearly expense. -/
structure Expense where
  name : String
  yearly_amount : ℚ
deriving DecidableEq

/-- `NetWorth`: cash, investments and owned properties. -/
structure NetWorth where
  cash : ℚ
  investments : ℚ
  properties : List Property
deriving DecidableEq

/-- `NetWorth.compute_networth`:
`cash + investments + sum(p.gross_value - p.debt for p in properties)`. -/
def NetWorth.compute_networth (nw : NetWorth) : ℚ :=
  nw.cash + nw.investments + (nw.properties.map (fun p => p.gross_value - p.debt)).sum

/-- The six `Event.action` strings of the source, as a tagged variant
carrying the payload each branch of `Event.apply` reads: a full entity
for the Add/Buy actions, the `payload["name"]` string for Remove/Sell. -/
inductive EventAction where
  | addIncome (payload : Income)
  | removeIncome (name : String)
  | addExpense (payload : Expense)
  | removeExpense (name : String)
  | buyProperty (payload : Property)
  | sellProperty (name : String)
deriving DecidableEq

/-- `Event.__init__`: a year and an action (with its payload). -/
structure Event where
  year : ℤ
  action : EventAction
deriving DecidableEq

/-- One row of `simulation_results`: the dict
`{"Year": ..., "Available for investment": ..., "Investments total": ...,
"Net worth": ...}`. -/
structure ResultRow where
  year : ℤ
  available_for_investment : ℚ
  investments_total : ℚ
  net_worth : ℚ
deriving DecidableEq

/-- `Simulation.__init__` state: year counter, net worth, active incomes
and expenses, event list, annual return rate, accumulated results.  The
constructor's event sorting is modelled in `Simulation.make` below. -/
structure Simulation where
  current_year : ℤ
  networth : NetWorth
  incomes : List Income
  expenses : List Expense
  events : List Event
  r_annual : ℚ
  simulation_results : List ResultRow
deriving DecidableEq

/-- `Simulation.__init__`: `current_year = 0`, the given state, events
sorted by year (Python's `sorted` is stable), empty results. -/
def Simulation.make (networth : NetWorth) (incomes : List Income)
    (expenses : List Expense) (events : List Event) (r_annual : ℚ) :
    Simulation :=
  { current_year := 0
    networth := networth
    incomes := incomes
    expenses := expenses
    events := events.mergeSort (fun a b => decide (a.year ≤ b.year))
    r_annual := r_annual
    simulation_results := [] }

/-- `Event._apply_buy_property`: pay `gross_value + buying_taxes` from
investments first, overflowing to cash, then append the property. -/
def applyBuyProperty (prop : Property) (s : Simulation) : Simulation :=
  let total_cost := prop.gross_value + prop.buying_taxes
  let nw := s.networth
  if nw.investments ≥ total_cost then
    { s with networth := { nw with
        investments := nw.investments - total_cost
        properties := nw.properties ++ [prop] } }
  else
    { s with networth := { nw with
        investments := 0
        cash := nw.cash - (total_cost - nw.investments)
        properties := nw.properties ++ [prop] } }

/-- `Event._apply_sell_property`: find the first property with the given
name; if found, credit `gross_value - debt - 1000` to cash and remove
that property (Python's `list.remove` drops the first occurrence). -/
def applySellProperty (nm : String) (s : Simulation) : Simulation :=
  match s.networth.properties.find? (fun p => p.name == nm) with
  | none => s
  | some prop =>
      { s with networth := { s.networth with
          cash := s.networth.cash + (prop.gross_value - prop.debt - 1000)
          properties := s.networth.properties.eraseP (fun p => p.name == nm) } }

/-- `Event.apply`: dispatch on the action string. -/
def Event.apply (e : Event) (s : Simulation) : Simulation :=
  match e.action with
  | .addIncome i => { s with incomes := s.incomes ++ [i] }
  | .removeIncome nm =>
      { s with incomes := s.incomes.filter (fun i => i.name != nm) }
  | .addExpense x => { s with expenses := s.expenses ++ [x] }
  | .removeExpense nm =>
      { s with expenses := s.expenses.filter (fun x => x.name != nm) }
  | .buyProperty p => applyBuyProperty p s
  | .sellProperty nm => applySellProperty nm s

/-- `Simulation._apply_yearly_events`: apply, in list order, every event
whose year equals `current_year`. -/
def applyYearlyEvents (s : Simulation) : Simulation :=
  (s.events.filter (fun e => e.year == s.current_year)).foldl
    (fun st e => e.apply st) s

/-- The per-property update of `Simulation._update_loans`: active loans
amortize and count down; otherwise debt and monthly payment are forced
to zero. -/
def updateLoanProperty (p : Property) : Property :=
  if 0 < p.loan_duration then
    { p with debt := round2 (p.debt - p.yearly_amortization)
             loan_duration := p.loan_duration - 1 }
  else
    { p with debt := 0, loan_monthly_payment := 0 }

/-- `Simulation._update_loans`: update every owned property. -/
def updateLoans (s : Simulation) : Simulation :=
  { s with networth := { s.networth with
      properties := s.networth.properties.map updateLoanProperty } }

/-- The `property_expenses` sum of `Simulation._apply_expenses_and_incomes`. -/
def propertyExpenses (props : List Property) : ℚ :=
  (props.map (fun p =>
    p.taxe_fonciere + p.charges_copro + p.loan_monthly_payment * 12)).sum

/-- The `available_for_investment` value computed inside
`Simulation._apply_expenses_and_incomes`: incomes minus
(expenses plus property carrying costs). -/
def availableForInvestmentFlow (s : Simulation) : ℚ :=
  (s.incomes.map Income.yearly_amount).sum
    - ((s.expenses.map Expense.yearly_amount).sum
        + propertyExpenses s.networth.properties)

/-- `Simulation._apply_expenses_and_incomes`: `cash += net`, then sweep
`investments += cash; cash = 0`. -/
def applyExpensesAndIncomes (s : Simulation) : Simulation :=
  let cash1 := s.networth.cash + availableForInvestmentFlow s
  { s with networth := { s.networth with
      cash := 0
      investments := s.networth.investments + cash1 } }

/-- `Simulation._grow_investments`:
`investments = round(investments * (1 + r_annual), 2)`. -/
def growInvestments (s : Simulation) : Simulation :=
  { s with networth := { s.networth with
      investments := round2 (s.networth.investments * (1 + s.r_annual)) } }

/-- The `available_for_investment` value recomputed inside
`Simulation._record_results`. -/
def availableForInvestmentRecorded (s : Simulation) : ℚ :=
  (s.incomes.map Income.yearly_amount).sum
    - (s.expenses.map Expense.yearly_amount).sum
    - (s.networth.properties.map (fun p =>
        p.taxe_fonciere + p.charges_copro + p.loan_monthly_payment * 12)).sum

/-- `Simulation._record_results`: append the current year's snapshot. -/
def recordResults (s : Simulation) : Simulation :=
  { s with simulation_results := s.simulation_results ++
      [{ year := s.current_year
         available_for_investment := availableForInvestmentRecorded s
         investments_total := s.networth.investments
         net_worth := s.networth.compute_networth }] }

/-- One iteration of the loop body of `Simulation.run` for loop index `y`:
`self.current_year = y` followed by the five update steps. -/
def tick (y : ℤ) (s : Simulation) : Simulation :=
  recordResults (growInvestments (applyExpensesAndIncomes
    (updateLoans (applyYearlyEvents { s with current_year := y }))))

/-- Iterate `tick` over a list of loop indices. -/
def runYears : List ℤ → Simulation → Simulation
  | [], s => s
  | y :: ys, s => runYears ys (tick y s)

/-- `Simulation.run(years)`: `for y in range(1, years + 1)` run one tick,
i.e. ticks at `y = 1, …, years` (none when `years ≤ 0`). -/
def Simulation.run (s : Simulation) (years : ℤ) : Simulation :=
  runYears ((List.range years.toNat).map (fun (i : ℕ) => (i : ℤ) + 1)) s

/-- `Simulation.reset`: clear `current_year` and `simulation_results`,
leave everything else as it is. -/
def Simulation.reset (s : Simulation) : Simulation :=
  { s with current_year := 0, simulation_results := [] }


/-! ### Concrete inputs used by counterexamples and witnesses -/

/-- The trivial simulation used as a concrete input in several witnesses:
no money, no properties, no incomes, no expenses, no events. -/
def s0 : Simulation :=
  { current_year := 0, networth := ⟨0, 0, []⟩, incomes := [], expenses := [],
    events := [], r_annual := 0, simulation_results := [] }
/-- Concrete input for the C5 witness: the spec's §8 purchase scenario
(gross value 100000, buying taxes 5000, investments 50000). -/
def c5prop : Property := Property.make "Bought" 100000 5000 0 0 0 0 0 0
/-- Simulation state holding 50000 of investments, for the C5 witness. -/
def c5sim : Simulation :=
  { current_year := 0, networth := ⟨0, 50000, []⟩, incomes := [], expenses := [],
    events := [], r_annual := 0, simulation_results := [] }
/-- Concrete state for the C7 witness: one income, one expense and one
property, none of them named "Ghost". -/
def c7sim : Simulation :=
  { current_year := 0
    networth := ⟨100, 200, [Property.make "Home" 300000 0 0 800 1200 0 0 0]⟩
    incomes := [⟨"Salary", 5000⟩], expenses := [⟨"Living", 3000⟩]
    events := [], r_annual := 0, simulation_results := [] }
/-- Concrete input refuting C2: a property with a 1-year loan of 1200 at
12% annual interest. -/
def c2prop : Property := Property.make "P" 100000 0 1200 0 0 1200 1 (12 / 100)
/-- Simulation owning `c2prop`, for the C2 counterexample. -/
def c2sim : Simulation :=
  { current_year := 0, networth := ⟨0, 0, [c2prop]⟩, incomes := [], expenses := [],
    events := [], r_annual := 0, simulation_results := [] }
/-- Concrete input refuting C3's net-worth clause: the spec's own §8
scenario, a property with gross value 200000 and debt 50000 (no loan). -/
def c3prop : Property := Property.make "House" 200000 0 50000 0 0 0 0 0
/-- Simulation owning `c3prop`, for the C3 counterexample. -/
def c3sim : Simulation :=
  { current_year := 0, networth := ⟨0, 0, [c3prop]⟩, incomes := [], expenses := [],
    events := [], r_annual := 0, simulation_results := [] }
/-- Concrete property for the C3 amended witness: debt-free, cost-free,
never financed. -/
def c3wprop : Property := Property.make "H" 200000 0 0 0 0 0 0 0
/-- Concrete state for the C3 amended witness. -/
def c3wsim : Simulation :=
  { current_year := 0, networth := ⟨10, 20, [c3wprop]⟩,
    incomes := [⟨"Salary", 100⟩], expenses := [⟨"Living", 30⟩],
    events := [], r_annual := 0, simulation_results := [] }

/-! ### Helper lemmas -/

/-- `Event.apply` only touches the net worth and the income/expense
lists: year counter and result list are untouched. -/
lemma Event.apply_preserves (e : Event) (s : Simulation) :
    (e.apply s).current_year = s.current_year
      ∧ (e.apply s).simulation_results = s.simulation_results := by
  cases e with
  | mk yr a =>
    cases a with
    | addIncome i => exact ⟨rfl, rfl⟩
    | removeIncome nm => exact ⟨rfl, rfl⟩
    | addExpense x => exact ⟨rfl, rfl⟩
    | removeExpense nm => exact ⟨rfl, rfl⟩
    | buyProperty p =>
      simp only [Event.apply, applyBuyProperty]
      split <;> exact ⟨rfl, rfl⟩
    | sellProperty nm =>
      simp only [Event.apply, applySellProperty]
      split <;> exact ⟨rfl, rfl⟩

/-- Folding `Event.apply` over any event list leaves the year counter and
the result list untouched. -/
lemma foldl_apply_preserves (es : List Event) :
    ∀ s : Simulation,
      (es.foldl (fun st e => e.apply st) s).current_year = s.current_year
      ∧ (es.foldl (fun st e => e.apply st) s).simulation_results
          = s.simulation_results := by
  induction es with
  | nil => intro s; exact ⟨rfl, rfl⟩
  | cons e es ih =>
    intro s
    have h1 := ih (e.apply s)
    have h2 := e.apply_preserves s
    simp only [List.foldl_cons]
    exact ⟨h1.1.trans h2.1, h1.2.trans h2.2⟩

/-- `applyYearlyEvents` leaves the year counter and result list
untouched. -/
lemma applyYearlyEvents_preserves (s : Simulation) :
    (applyYearlyEvents s).current_year = s.current_year
      ∧ (applyYearlyEvents s).simulation_results = s.simulation_results :=
  foldl_apply_preserves _ s

/-- A tick appends exactly one result row, carrying the loop index as its
year. -/
lemma tick_results_map_year (y : ℤ) (s : Simulation) :
    (tick y s).simulation_results.map ResultRow.year
      = s.simulation_results.map ResultRow.year ++ [y] := by
  have h := applyYearlyEvents_preserves { s with current_year := y }
  simp only [tick, recordResults, growInvestments, applyExpensesAndIncomes,
    updateLoans, h.1, h.2, List.map_append, List.map_cons, List.map_nil]

/-- The year counter after a tick is the loop index. -/
lemma tick_current_year (y : ℤ) (s : Simulation) :
    (tick y s).current_year = y := by
  have h := applyYearlyEvents_preserves { s with current_year := y }
  simpa only [tick, recordResults, growInvestments, applyExpensesAndIncomes,
    updateLoans] using h.1

/-- Cash is zero at the end of every tick: the sweep in
`_apply_expenses_and_incomes` zeroes it and the two later steps leave it
alone. -/
lemma tick_cash (y : ℤ) (s : Simulation) :
    (tick y s).networth.cash = 0 := rfl

/-- The years recorded by `runYears` are the initial ones followed by the
processed loop indices, in order. -/
lemma runYears_results_years (ys : List ℤ) :
    ∀ s : Simulation,
      (runYears ys s).simulation_results.map ResultRow.year
        = s.simulation_results.map ResultRow.year ++ ys := by
  induction ys with
  | nil => intro s; simp [runYears]
  | cons y ys ih =>
    intro s
    simp only [runYears, ih (tick y s), tick_results_map_year, List.append_assoc,
      List.cons_append, List.nil_append]

/-- The year counter after `runYears` is the last processed loop index
(or the old counter when no index was processed). -/
lemma runYears_current_year (ys : List ℤ) :
    ∀ s : Simulation,
      (runYears ys s).current_year = ys.getLastD s.current_year := by
  induction ys with
  | nil => intro s; rfl
  | cons y ys ih =>
    intro s
    simp only [runYears, ih (tick y s), tick_current_year, List.getLastD_cons]

/-- After at least one tick, cash is zero. -/
lemma runYears_cash (ys : List ℤ) :
    ∀ s : Simulation, ys ≠ [] → (runYears ys s).networth.cash = 0 := by
  induction ys with
  | nil => intro s h; exact absurd rfl h
  | cons y ys ih =>
    intro s _
    cases ys with
    | nil => exact tick_cash y s
    | cons z zs => exact ih (tick y s) (by simp)

/-- The loop indices `range(1, years + 1)` of `Simulation.run`. -/
lemma run_eq_runYears (s : Simulation) (years : ℤ) :
    Simulation.run s years
      = runYears ((List.range years.toNat).map (fun (i : ℕ) => (i : ℤ) + 1)) s := rfl

/-- Last element of the mapped range used by `Simulation.run`. -/
lemma range_map_getLastD (n : ℕ) (d : ℤ) (h : 0 < n) :
    ((List.range n).map (fun (i : ℕ) => (i : ℤ) + 1)).getLastD d = (n : ℤ) := by
  cases n with
  | zero => exact absurd h (lt_irrefl 0)
  | succ m =>
    simp only [List.range_succ, List.map_append, List.map_cons, List.map_nil,
      List.getLastD_concat]
    push_cast
    ring

/-! ### Claims -/


/-- C8: `compute_networth` returns exactly
cash + investments + Σ (gross_value − debt), and the net worth after zero
simulated years is that of the initial state. -/
theorem networth_is_cash_investments_properties (nw : NetWorth) (s : Simulation) :
    nw.compute_networth
        = nw.cash + nw.investments
            + (nw.properties.map (fun p => p.gross_value - p.debt)).sum
      ∧ (Simulation.run s 0).networth.compute_networth
          = s.networth.cash + s.networth.investments
              + (s.networth.properties.map (fun p => p.gross_value - p.debt)).sum :=
  ⟨rfl, rfl⟩

/-- C9: `reset` clears only `current_year` and `simulation_results`;
net worth, incomes, expenses, events and the return rate keep their
current (not their original) values, and `reset()` followed by `run(0)`
leaves an empty result list with `current_year = 0`. -/
theorem reset_clears_only_counter_and_results (s : Simulation) :
    s.reset.current_year = 0 ∧ s.reset.simulation_results = []
      ∧ s.reset.networth = s.networth ∧ s.reset.incomes = s.incomes
      ∧ s.reset.expenses = s.expenses ∧ s.reset.events = s.events
      ∧ s.reset.r_annual = s.r_annual
      ∧ (Simulation.run s.reset 0).simulation_results = []
      ∧ (Simulation.run s.reset 0).current_year = 0 :=
  ⟨rfl, rfl, rfl, rfl, rfl, rfl, rfl, rfl, rfl⟩

/-- C5: a "Buy property" event deducts `min(cost, investments)` from
investments; when investments fall short they become exactly 0 and the
shortfall comes out of cash (which may go negative); the property is
appended in all cases. -/
theorem buy_property_funding_order (s : Simulation) (prop : Property) (yr : ℤ) :
    (Event.apply ⟨yr, .buyProperty prop⟩ s).networth.properties
        = s.networth.properties ++ [prop]
      ∧ (Event.apply ⟨yr, .buyProperty prop⟩ s).networth.investments
          = s.networth.investments
              - min (prop.gross_value + prop.buying_taxes) s.networth.investments
      ∧ (Event.apply ⟨yr, .buyProperty prop⟩ s).networth.cash
          = s.networth.cash - ((prop.gross_value + prop.buying_taxes)
              - min (prop.gross_value + prop.buying_taxes) s.networth.investments)
      ∧ (s.networth.investments < prop.gross_value + prop.buying_taxes →
          (Event.apply ⟨yr, .buyProperty prop⟩ s).networth.investments = 0
            ∧ (Event.apply ⟨yr, .buyProperty prop⟩ s).networth.cash
                = s.networth.cash
                    - ((prop.gross_value + prop.buying_taxes) - s.networth.investments)) := by
  simp only [Event.apply, applyBuyProperty]
  by_cases h : s.networth.investments ≥ prop.gross_value + prop.buying_taxes
  · rw [if_pos h]
    have hmin : min (prop.gross_value + prop.buying_taxes) s.networth.investments
        = prop.gross_value + prop.buying_taxes := min_eq_left h
    refine ⟨rfl, by rw [hmin], ?_, ?_⟩
    · rw [hmin]; ring
    · intro hlt; exact absurd h (not_le.mpr hlt)
  · rw [if_neg h]
    have hlt : s.networth.investments < prop.gross_value + prop.buying_taxes :=
      not_le.mp h
    have hmin : min (prop.gross_value + prop.buying_taxes) s.networth.investments
        = s.networth.investments := min_eq_right (le_of_lt hlt)
    refine ⟨rfl, ?_, ?_, fun _ => ⟨rfl, rfl⟩⟩
    · show (0 : ℚ) = s.networth.investments
        - min (prop.gross_value + prop.buying_taxes) s.networth.investments
      rw [hmin]; ring
    · show s.networth.cash - (prop.gross_value + prop.buying_taxes
          - s.networth.investments)
        = s.networth.cash - ((prop.gross_value + prop.buying_taxes)
            - min (prop.gross_value + prop.buying_taxes) s.networth.investments)
      rw [hmin]



/-- C5 witness: with investments 50000 < cost 105000, investments end at 0
and cash absorbs the 55000 shortfall. -/
theorem buy_property_funding_order_witness :
    c5sim.networth.investments < c5prop.gross_value + c5prop.buying_taxes
      ∧ (Event.apply ⟨1, .buyProperty c5prop⟩ c5sim).networth.investments = 0
      ∧ (Event.apply ⟨1, .buyProperty c5prop⟩ c5sim).networth.cash
          = c5sim.networth.cash
              - ((c5prop.gross_value + c5prop.buying_taxes) - c5sim.networth.investments) := by
  have hlt : c5sim.networth.investments < c5prop.gross_value + c5prop.buying_taxes := by
    simp [c5sim, c5prop, Property.make, computeLoanDetails]
    norm_num
  have h := (buy_property_funding_order c5sim c5prop 1).2.2.2 hlt
  exact ⟨hlt, h.1, h.2⟩

/-- C4: the derived loan fields at construction: for `n = duration*12 > 0`
and `r = rate/12 > 0` the annuity monthly payment (rounded to 2 decimal
places) and straight-line yearly amortization; for `n = 0` or `r = 0`
both are zero. -/
theorem loan_details_at_construction (nm : String) (gv bt d tf cc la : ℚ)
    (ld : ℤ) (rate : ℚ) :
    (0 < ld * 12 → 0 < rate / 12 →
      (Property.make nm gv bt d tf cc la ld rate).loan_monthly_payment
          = round2 (la / (((1 + rate / 12) ^ (ld * 12).toNat - 1)
              / (rate / 12 * (1 + rate / 12) ^ (ld * 12).toNat)))
        ∧ (Property.make nm gv bt d tf cc la ld rate).yearly_amortization
            = la / (ld : ℚ))
      ∧ (ld * 12 = 0 ∨ rate / 12 = 0 →
        (Property.make nm gv bt d tf cc la ld rate).loan_monthly_payment = 0
          ∧ (Property.make nm gv bt d tf cc la ld rate).yearly_amortization = 0) := by
  constructor
  · intro hn hr
    simp only [Property.make, computeLoanDetails]
    rw [if_pos ⟨hn, hr⟩]
    exact ⟨rfl, rfl⟩
  · intro h
    have hneg : ¬ (0 < ld * 12 ∧ 0 < rate / 12) := by
      rcases h with h | h
      · rintro ⟨h1, -⟩; omega
      · rintro ⟨-, h2⟩; rw [h] at h2; exact lt_irrefl 0 h2
    simp only [Property.make, computeLoanDetails]
    rw [if_neg hneg]
    exact ⟨rfl, rfl⟩

/-- C4 witness: a 1-year loan of 1200 at 12% annual interest
(`n = 12 > 0`, `r = 1/100 > 0`), and a no-loan property (`n = 0`). -/
theorem loan_details_at_construction_witness :
    (0 < (1 : ℤ) * 12 ∧ 0 < (12 / 100 : ℚ) / 12
      ∧ (Property.make "P" 100000 0 1200 0 0 1200 1 (12 / 100)).loan_monthly_payment
          = round2 (1200 / (((1 + (12 / 100 : ℚ) / 12) ^ ((1 : ℤ) * 12).toNat - 1)
              / ((12 / 100 : ℚ) / 12 * (1 + (12 / 100 : ℚ) / 12) ^ ((1 : ℤ) * 12).toNat)))
      ∧ (Property.make "P" 100000 0 1200 0 0 1200 1 (12 / 100)).yearly_amortization
          = 1200 / ((1 : ℤ) : ℚ))
    ∧ ((0 : ℤ) * 12 = 0 ∨ ((0 : ℚ) / 12 = 0)
      ∧ (Property.make "Q" 100000 0 0 0 0 0 0 0).loan_monthly_payment = 0
      ∧ (Property.make "Q" 100000 0 0 0 0 0 0 0).yearly_amortization = 0) := by
  have hn : (0 : ℤ) < 1 * 12 := by norm_num
  have hr : (0 : ℚ) < (12 / 100) / 12 := by norm_num
  have h1 := (loan_details_at_construction "P" 100000 0 1200 0 0 1200 1 (12 / 100)).1 hn hr
  have h2 := (loan_details_at_construction "Q" 100000 0 0 0 0 0 0 0).2 (Or.inl rfl)
  exact ⟨⟨hn, hr, h1.1, h1.2⟩, Or.inr ⟨by norm_num, h2.1, h2.2⟩⟩

/-- C7: each no-match event is a silent no-op on its own: a "Remove
income" whose name matches no active income, a "Remove expense" whose
name matches no active expense, and a "Sell property" whose name matches
no owned property each return the whole simulation state unchanged —
each under only its own collection's hypothesis. -/
theorem remove_sell_no_match_noop (s : Simulation) (nm : String) (yr : ℤ) :
    ((∀ i ∈ s.incomes, i.name ≠ nm) →
        Event.apply ⟨yr, .removeIncome nm⟩ s = s)
      ∧ ((∀ x ∈ s.expenses, x.name ≠ nm) →
          Event.apply ⟨yr, .removeExpense nm⟩ s = s)
      ∧ ((∀ p ∈ s.networth.properties, p.name ≠ nm) →
          Event.apply ⟨yr, .sellProperty nm⟩ s = s) := by
  refine ⟨?_, ?_, ?_⟩
  · intro hi
    have : s.incomes.filter (fun i => i.name != nm) = s.incomes :=
      List.filter_eq_self.mpr (fun i hmem => by
        simpa only [bne_iff_ne, ne_eq] using hi i hmem)
    simp only [Event.apply, this]
  · intro he
    have : s.expenses.filter (fun x => x.name != nm) = s.expenses :=
      List.filter_eq_self.mpr (fun x hmem => by
        simpa only [bne_iff_ne, ne_eq] using he x hmem)
    simp only [Event.apply, this]
  · intro hp
    have hfind : s.networth.properties.find? (fun p => p.name == nm) = none :=
      List.find?_eq_none.mpr (fun p hmem => by
        simpa only [beq_eq_false_iff_ne, ne_eq, Bool.not_eq_true] using hp p hmem)
    simp only [Event.apply, applySellProperty, hfind]


/-- C7 witness: a "Remove income" for "Living" — a name carried only by
an expense, not by any income — is a no-op under the income hypothesis
alone, and removing or selling the absent name "Ghost" is likewise a
no-op for the other two collections. -/
theorem remove_sell_no_match_noop_witness :
    (∀ i ∈ c7sim.incomes, i.name ≠ "Living")
      ∧ Event.apply ⟨1, .removeIncome "Living"⟩ c7sim = c7sim
      ∧ (∀ x ∈ c7sim.expenses, x.name ≠ "Ghost")
      ∧ Event.apply ⟨1, .removeExpense "Ghost"⟩ c7sim = c7sim
      ∧ (∀ p ∈ c7sim.networth.properties, p.name ≠ "Ghost")
      ∧ Event.apply ⟨1, .sellProperty "Ghost"⟩ c7sim = c7sim := by
  have hi : ∀ i ∈ c7sim.incomes, i.name ≠ "Living" := by
    intro i hmem
    simp only [c7sim, List.mem_singleton] at hmem
    subst hmem
    decide
  have he : ∀ x ∈ c7sim.expenses, x.name ≠ "Ghost" := by
    intro x hmem
    simp only [c7sim, List.mem_singleton] at hmem
    subst hmem
    decide
  have hp : ∀ p ∈ c7sim.networth.properties, p.name ≠ "Ghost" := by
    intro p hmem
    simp only [c7sim, List.mem_singleton] at hmem
    subst hmem
    decide
  exact ⟨hi, (remove_sell_no_match_noop c7sim "Living" 1).1 hi,
    he, (remove_sell_no_match_noop c7sim "Ghost" 1).2.1 he,
    hp, (remove_sell_no_match_noop c7sim "Ghost" 1).2.2 hp⟩

/-- C10: the "Available for investment" value appended by the recording
step equals the `available_for_investment` added to cash by the
expenses-and-incomes step of the same tick; indeed the two computations
agree on every state. -/
theorem recorded_available_matches_flow (s : Simulation) (y : ℤ) :
    ((tick y s).simulation_results.getLast?).map ResultRow.available_for_investment
        = some (availableForInvestmentFlow
            (updateLoans (applyYearlyEvents { s with current_year := y })))
      ∧ ∀ t : Simulation, availableForInvestmentRecorded t = availableForInvestmentFlow t := by
  have hall : ∀ t : Simulation,
      availableForInvestmentRecorded t = availableForInvestmentFlow t := by
    intro t
    simp only [availableForInvestmentRecorded, availableForInvestmentFlow,
      propertyExpenses, sub_sub]
  refine ⟨?_, hall⟩
  simp only [tick, recordResults, List.getLast?_concat, Option.map_some']
  rw [hall]
  simp only [availableForInvestmentFlow, growInvestments, applyExpensesAndIncomes,
    propertyExpenses]

/-- C6: cash is exactly zero at the end of every completed yearly tick,
and hence after `run(N)` returns for any `N ≥ 1`. -/
theorem cash_zero_after_tick_and_run (s : Simulation) (y : ℤ) (years : ℤ)
    (h : 1 ≤ years) :
    (tick y s).networth.cash = 0
      ∧ (Simulation.run s years).networth.cash = 0 := by
  refine ⟨tick_cash y s, ?_⟩
  rw [run_eq_runYears]
  apply runYears_cash
  have hpos : 0 < years.toNat := by omega
  cases hn : years.toNat with
  | zero => omega
  | succ m => simp [List.range_succ]

/-- C6 witness: after one tick and after `run(1)` on the trivial state,
cash is zero. -/
theorem cash_zero_after_tick_and_run_witness :
    (1 : ℤ) ≤ 1 ∧ (tick 1 s0).networth.cash = 0
      ∧ (Simulation.run s0 1).networth.cash = 0 := by
  have h := cash_zero_after_tick_and_run s0 1 1 (by norm_num)
  exact ⟨le_refl 1, h.1, h.2⟩

/-- C1 counterexample: `run(1)` on the trivial state ends with
`current_year = 1`, yet a second `run(2)` without reset records years
1, 1, 2 — its loop restarts at year 1 instead of continuing from
`current_year + 1 = 2` (which would have recorded years 1, 2). -/
theorem run_restart_counterexample :
    (Simulation.run s0 1).current_year = 1
      ∧ (Simulation.run (Simulation.run s0 1) 2).simulation_results.map ResultRow.year
          = [1, 1, 2]
      ∧ ¬ ((Simulation.run (Simulation.run s0 1) 2).simulation_results.map ResultRow.year
          = [1, 2]) :=
  ⟨by decide, by decide, by decide⟩

/-- C1 amended: `run(years)` iterates `y = 1, …, years` regardless of the
starting `current_year` — the recorded years are the previous ones
followed by `1, …, years`, and the final counter is `years` (when at
least one year is simulated). -/
theorem run_iterates_from_one (s : Simulation) (years : ℤ) :
    (Simulation.run s years).simulation_results.map ResultRow.year
        = s.simulation_results.map ResultRow.year
            ++ (List.range years.toNat).map (fun (i : ℕ) => (i : ℤ) + 1)
      ∧ (0 < years → (Simulation.run s years).current_year = years) := by
  constructor
  · rw [run_eq_runYears]
    exact runYears_results_years _ s
  · intro hpos
    rw [run_eq_runYears, runYears_current_year]
    have h0 : (0 : ℕ) < years.toNat := by omega
    rw [range_map_getLastD _ _ h0]
    omega

/-- C1 amended witness: `run(2)` on the trivial state records years 1, 2
and ends at `current_year = 2`. -/
theorem run_iterates_from_one_witness :
    (0 : ℤ) < 2
      ∧ (Simulation.run s0 2).simulation_results.map ResultRow.year
          = s0.simulation_results.map ResultRow.year
              ++ (List.range (2 : ℤ).toNat).map (fun (i : ℕ) => (i : ℤ) + 1)
      ∧ (Simulation.run s0 2).current_year = 2 := by
  have h := run_iterates_from_one s0 2
  exact ⟨by norm_num, h.1, h.2 (by norm_num)⟩



/-- C2 counterexample: after one tick the property's `loan_duration` has
been decremented to 0, but its `yearly_amortization` is still 1200 ≠ 0 —
`_update_loans` never resets that field. -/
theorem amortization_survives_loan_end_counterexample :
    ((Simulation.run c2sim 1).networth.properties.map
        (fun p => (p.loan_duration, p.yearly_amortization))) = [(0, 1200)]
      ∧ (1200 : ℚ) ≠ 0 := by
  constructor
  · simp [Simulation.run, runYears, tick, c2sim, c2prop, Property.make,
      computeLoanDetails, applyYearlyEvents, updateLoans, updateLoanProperty,
      applyExpensesAndIncomes, availableForInvestmentFlow, propertyExpenses,
      growInvestments, recordResults, availableForInvestmentRecorded,
      NetWorth.compute_networth, List.range, List.range.loop]
  · norm_num

/-- C2 amended: at construction, non-positive duration or rate forces
both derived loan fields to zero; during a tick, a property entering
`_update_loans` with `loan_duration ≤ 0` leaves with `debt = 0` and
`loan_monthly_payment = 0` — but its `yearly_amortization` is left
unchanged, not zeroed. -/
theorem loan_zeroing_amended (nm : String) (gv bt d tf cc la : ℚ) (ld : ℤ)
    (rate : ℚ) (p : Property) :
    (ld ≤ 0 ∨ rate ≤ 0 →
      (Property.make nm gv bt d tf cc la ld rate).loan_monthly_payment = 0
        ∧ (Property.make nm gv bt d tf cc la ld rate).yearly_amortization = 0)
      ∧ (p.loan_duration ≤ 0 →
          (updateLoanProperty p).debt = 0
            ∧ (updateLoanProperty p).loan_monthly_payment = 0
            ∧ (updateLoanProperty p).yearly_amortization = p.yearly_amortization) := by
  constructor
  · intro h
    have hneg : ¬ (0 < ld * 12 ∧ 0 < rate / 12) := by
      rcases h with h | h
      · rintro ⟨h1, -⟩; omega
      · rintro ⟨-, h2⟩
        rcases div_pos_iff.mp h2 with ⟨hr, -⟩ | ⟨-, h12⟩
        · linarith
        · norm_num at h12
    simp only [Property.make, computeLoanDetails]
    rw [if_neg hneg]
    exact ⟨rfl, rfl⟩
  · intro hld
    simp only [updateLoanProperty]
    rw [if_neg (by omega : ¬ 0 < p.loan_duration)]
    exact ⟨rfl, rfl, rfl⟩

/-- C2 amended witness: a never-financed property (duration 0) has zero
derived loan fields at construction, and the loan update forces its debt
and monthly payment to zero. -/
theorem loan_zeroing_amended_witness :
    ((0 : ℤ) ≤ 0 ∨ (5 / 100 : ℚ) ≤ 0)
      ∧ (Property.make "W" 100 0 0 0 0 50 0 (5 / 100)).loan_monthly_payment = 0
      ∧ (Property.make "W" 100 0 0 0 0 50 0 (5 / 100)).yearly_amortization = 0
      ∧ (Property.make "W" 100 0 0 0 0 50 0 (5 / 100)).loan_duration ≤ 0
      ∧ (updateLoanProperty (Property.make "W" 100 0 0 0 0 50 0 (5 / 100))).debt = 0
      ∧ (updateLoanProperty
          (Property.make "W" 100 0 0 0 0 50 0 (5 / 100))).loan_monthly_payment = 0 := by
  have h := loan_zeroing_amended "W" 100 0 0 0 0 50 0 (5 / 100)
      (Property.make "W" 100 0 0 0 0 50 0 (5 / 100))
  have h1 := h.1 (Or.inl (le_refl 0))
  have hld : (Property.make "W" 100 0 0 0 0 50 0 (5 / 100)).loan_duration ≤ 0 := by
    decide
  have h2 := h.2 hld
  exact ⟨Or.inl (le_refl 0), h1.1, h1.2, hld, h2.1, h2.2.1⟩

/-- Erasing the first element on which the predicate fires (the one
`find?` returns) splits the mapped sum. -/
lemma sum_map_eraseP_of_find {α : Type} (pred : α → Bool) (f : α → ℚ) :
    ∀ (l : List α) (a : α), l.find? pred = some a →
      (l.map f).sum = ((l.eraseP pred).map f).sum + f a := by
  intro l
  induction l with
  | nil => intro a h; simp [List.find?] at h
  | cons b t ih =>
    intro a h
    by_cases hb : pred b
    · rw [List.find?_cons_of_pos _ hb] at h
      obtain rfl : b = a := by injection h
      rw [List.eraseP_cons_of_pos hb]
      simp only [List.map_cons, List.sum_cons]
      ring
    · rw [List.find?_cons_of_neg _ hb] at h
      rw [List.eraseP_cons_of_neg hb]
      simp only [List.map_cons, List.sum_cons, ih a h]
      ring

/-- Closed form of the net worth right after the cash sweep of a tick
(steps 2–3 applied to a state `t`): previous investments and cash, plus
net yearly flow, plus the equity of the updated properties. -/
lemma networth_after_sweep (t : Simulation) :
    (applyExpensesAndIncomes (updateLoans t)).networth.compute_networth
      = t.networth.investments + t.networth.cash
        + (t.incomes.map Income.yearly_amount).sum
        - (t.expenses.map Expense.yearly_amount).sum
        - (t.networth.properties.map (fun q =>
            (updateLoanProperty q).taxe_fonciere + (updateLoanProperty q).charges_copro
              + (updateLoanProperty q).loan_monthly_payment * 12)).sum
        + (t.networth.properties.map (fun q =>
            (updateLoanProperty q).gross_value - (updateLoanProperty q).debt)).sum := by
  simp only [applyExpensesAndIncomes, updateLoans, availableForInvestmentFlow,
    propertyExpenses, NetWorth.compute_networth, List.map_map, Function.comp_def]
  ring



/-- C3 counterexample: selling the 200000/50000 property yields a
post-sweep net worth of 149000, but NOT selling yields 200000 (the loan
update forcibly erases the 50000 debt), so the difference is −51000, not
the claimed −1000. -/
theorem sell_property_delta_counterexample :
    (applyExpensesAndIncomes (updateLoans
        (Event.apply ⟨1, .sellProperty "House"⟩ c3sim))).networth.compute_networth
        = 149000
      ∧ (applyExpensesAndIncomes (updateLoans c3sim)).networth.compute_networth
          = 200000
      ∧ ¬ ((149000 : ℚ) = 200000 - 1000) := by
  refine ⟨?_, ?_, by norm_num⟩
  · simp [Event.apply, applySellProperty, c3sim, c3prop, Property.make,
      computeLoanDetails, updateLoans, updateLoanProperty, applyExpensesAndIncomes,
      availableForInvestmentFlow, propertyExpenses, NetWorth.compute_networth,
      List.find?, List.eraseP]
    norm_num
  · simp [c3sim, c3prop, Property.make, computeLoanDetails, updateLoans,
      updateLoanProperty, applyExpensesAndIncomes, availableForInvestmentFlow,
      propertyExpenses, NetWorth.compute_networth]

/-- C3 amended: a "Sell property" event for an owned name credits cash
with exactly `gross_value − debt − 1000` and removes that property; the
post-sweep net worth differs from the no-sale case by exactly −1000 only
when the property contributes nothing else to the tick — zero
taxe_fonciere, zero charges_copro, zero debt and no active loan
(otherwise the difference also reflects the forgone carrying costs and
forced debt write-off). -/
theorem sell_property_amended (s : Simulation) (nm : String) (p : Property) (yr : ℤ)
    (hfind : s.networth.properties.find? (fun q => q.name == nm) = some p) :
    ((Event.apply ⟨yr, .sellProperty nm⟩ s).networth.cash
        = s.networth.cash + (p.gross_value - p.debt - 1000)
      ∧ (Event.apply ⟨yr, .sellProperty nm⟩ s).networth.properties
          = s.networth.properties.eraseP (fun q => q.name == nm))
      ∧ (p.taxe_fonciere = 0 → p.charges_copro = 0 → p.debt = 0 →
          p.loan_duration ≤ 0 →
          (applyExpensesAndIncomes (updateLoans
              (Event.apply ⟨yr, .sellProperty nm⟩ s))).networth.compute_networth
            = (applyExpensesAndIncomes (updateLoans s)).networth.compute_networth
                - 1000) := by
  have happ : Event.apply ⟨yr, .sellProperty nm⟩ s
      = { s with networth := { s.networth with
            cash := s.networth.cash + (p.gross_value - p.debt - 1000)
            properties := s.networth.properties.eraseP (fun q => q.name == nm) } } := by
    simp only [Event.apply, applySellProperty, hfind]
  refine ⟨⟨by rw [happ], by rw [happ]⟩, ?_⟩
  intro htf hcc hd hld
  have hcarry := sum_map_eraseP_of_find (fun q => q.name == nm)
      (fun q => (updateLoanProperty q).taxe_fonciere + (updateLoanProperty q).charges_copro
        + (updateLoanProperty q).loan_monthly_payment * 12) s.networth.properties p hfind
  have hgd := sum_map_eraseP_of_find (fun q => q.name == nm)
      (fun q => (updateLoanProperty q).gross_value - (updateLoanProperty q).debt)
      s.networth.properties p hfind
  have hupdp : updateLoanProperty p
      = { p with debt := 0, loan_monthly_payment := 0 } := by
    simp only [updateLoanProperty]
    rw [if_neg (by omega : ¬ 0 < p.loan_duration)]
  rw [happ]
  simp only [networth_after_sweep]
  rw [hcarry, hgd]
  simp only [hupdp, htf, hcc, hd]
  ring



/-- C3 amended witness: selling the cost-free, debt-free property "H"
credits 199000 to cash and shifts the post-sweep net worth by exactly
−1000. -/
theorem sell_property_amended_witness :
    c3wsim.networth.properties.find? (fun q => q.name == "H") = some c3wprop
      ∧ (Event.apply ⟨1, .sellProperty "H"⟩ c3wsim).networth.cash
          = c3wsim.networth.cash + (c3wprop.gross_value - c3wprop.debt - 1000)
      ∧ c3wprop.debt = 0
      ∧ (applyExpensesAndIncomes (updateLoans
          (Event.apply ⟨1, .sellProperty "H"⟩ c3wsim))).networth.compute_networth
          = (applyExpensesAndIncomes (updateLoans c3wsim)).networth.compute_networth
              - 1000 := by
  have hfind : c3wsim.networth.properties.find? (fun q => q.name == "H")
      = some c3wprop := by
    simp [c3wsim, c3wprop, List.find?, Property.make, computeLoanDetails]
  have h := sell_property_amended c3wsim "H" c3wprop 1 hfind
  have hld : c3wprop.loan_duration ≤ 0 := by decide
  exact ⟨hfind, h.1.1, rfl, h.2 rfl rfl rfl hld⟩

end FinanceSim
